import Mathlib

/-!
Verification of the aarch64 native-instruction patching core
(src/src/hotspot/cpu/aarch64/nativeInst_aarch64.cpp).

Machine words are modelled as `Nat` (32-bit instruction words, with
explicit `% 2 ^ 32` where C++ unsigned arithmetic wraps) and pointer-sized
values as `Int` (two's-complement value of `intptr_t`).  Code addresses are
`Int`.  Executable memory is a pair of maps: `w32` for 4-byte instruction
words and `w64` for pointer-sized data cells (trampoline destination slots
and constant-pool slots); the two are accessed disjointly by the code under
verification.  The external collaborators named by the spec (blob registry,
relocation tables, the general-purpose instruction encoder) are modelled as
an explicit environment and an instruction-target map, see below.
-/

/-- Modelled from the spec: the shared bit-field extraction utility
(`Instruction_aarch64::extract` of the external assembler header):
`(val >> lsb) & ((1 << (msb - lsb + 1)) - 1)`. -/
def Instruction_aarch64.extract (val : Nat) (msb lsb : Nat) : Nat :=
  (val >>> lsb) &&& (2 ^ (msb - lsb + 1) - 1)

/-- Modelled from the spec: the shared bit-field patching utility
(`Instruction_aarch64::patch` of the external assembler header):
`*a = (target & ~mask) | (val << lsb)`, where `mask` covers bits
`lsb..msb`.  Since `target & ~mask` zeroes exactly the patched field,
the disjoint bitwise-or is written as an addition of the three disjoint
parts (bits above `msb`, the new field, bits below `lsb`).  The source
guarantees `val < 2 ^ (msb - lsb + 1)` before writing; the mask on `v`
makes the definition total. -/
def Instruction_aarch64.patch (w : Nat) (msb lsb : Nat) (v : Nat) : Nat :=
  ((w >>> (msb + 1)) <<< (msb + 1)) +
    ((v &&& (2 ^ (msb - lsb + 1) - 1)) <<< lsb) +
    (w &&& (2 ^ lsb - 1))

/-- Disjoint bitwise-or is addition: when `b` fits below the shift, the
or of `a <<< k` with `b` is their sum. -/
theorem shiftLeft_lor_eq_add (a b k : Nat) (hb : b < 2 ^ k) :
    (a <<< k) ||| b = a <<< k + b := by
  apply Nat.eq_of_testBit_eq
  intro i
  have hadd : a <<< k + b = 2 ^ k * a + b := by rw [Nat.shiftLeft_eq]; ring
  rw [Nat.testBit_lor, hadd, Nat.testBit_mul_pow_two_add a hb i, Nat.testBit_shiftLeft]
  by_cases h : i < k
  · simp [h, Nat.not_le.mpr h]
  · have hk : k ≤ i := Nat.le_of_not_lt h
    have h2 : b.testBit i = false :=
      Nat.testBit_lt_two_pow (lt_of_lt_of_le hb (Nat.pow_le_pow_right (by norm_num) hk))
    simp [h, hk, h2]

/-! ## Data model: relocation records, environment, machine state -/

/-- Relocation record kinds this core inspects (`relocInfo::oop_type`,
`relocInfo::metadata_type`, and everything else). -/
inductive RelocType where
  | oopType
  | metadataType
  | otherType
deriving DecidableEq

/-- One relocation record: its kind and the address of the out-of-band
reference slot it points to (`oop_addr()` / `metadata_addr()`). -/
structure Reloc where
  rtype : RelocType
  slotAddr : Int
deriving DecidableEq

/-- The external collaborators of the core (spec section 6), modelled as an
ambient environment:
`stubContains p` is `nm->stub_contains(p)` of the owning compiled unit;
`trampolineFor a` is `trampoline_stub_Relocation::get_trampoline_for(a, nm)`
with `0` standing for the null address;
`hasNm a` is whether `CodeCache::find_blob(a)->as_nmethod_or_null()` is
non-null; `relocsAt a` is the sequence of relocation records yielded by a
`RelocIterator` over the instruction at `a`. -/
structure Env where
  stubContains : Int → Bool
  trampolineFor : Int → Int
  hasNm : Int → Bool
  relocsAt : Int → List Reloc

/-- Machine state: `w32` maps a code address to the 32-bit instruction word
at it; `w64` maps an address to the pointer-sized data cell at it
(trampoline destination slots and constant-pool slots, two's-complement
value); `insnTarget` is the target address decoded from the (possibly
multi-word) operand encoding at a site, maintained by the external
general-purpose encoder (`MacroAssembler::target_addr_for_insn` reads it,
`MacroAssembler::pd_patch_instruction` writes it; modelled from the spec,
the encoder itself being out of scope); `refSlot` maps a relocation record
slot address to its stored reference; `icache` is the log of instruction
cache invalidations `(address, length)`, most recent first. -/
structure State where
  w32 : Int → Nat
  w64 : Int → Int
  insnTarget : Int → Int
  refSlot : Int → Int
  icache : List (Int × Nat)

/-- Write a 32-bit instruction word. -/
def upd32 (s : State) (p : Int) (v : Nat) : State :=
  { s with w32 := fun q => if q = p then v else s.w32 q }

/-- Write a pointer-sized data cell. -/
def upd64 (s : State) (p : Int) (v : Int) : State :=
  { s with w64 := fun q => if q = p then v else s.w64 q }

/-! ## Instruction-family predicates (NativeInstruction) -/

/-- MOVZ test (`NativeInstruction::is_movz`): bits 30..23 equal
`0b10100101`. -/
def NativeInstruction.is_movz (w : Nat) : Bool :=
  Instruction_aarch64.extract w 30 23 == 0b10100101

/-- MOVK test (`NativeInstruction::is_movk`): bits 30..23 equal
`0b11100101`. -/
def NativeInstruction.is_movk (w : Nat) : Bool :=
  Instruction_aarch64.extract w 30 23 == 0b11100101

/-- ADRP test (`NativeInstruction::is_adrp_at`): bits 31..24, with bits
30..29 masked out, equal `0b10010000`. -/
def NativeInstruction.is_adrp_at (w : Nat) : Bool :=
  Instruction_aarch64.extract w 31 24 &&& 0b10011111 == 0b10010000

/-- Load-register-literal test (`NativeInstruction::is_ldr_literal_at`):
bits 29..24, with bits 28..27 masked out, equal `0b011000`. -/
def NativeInstruction.is_ldr_literal_at (w : Nat) : Bool :=
  Instruction_aarch64.extract w 29 24 &&& 0b011011 == 0b011000

/-- Load-word-to-zero-register test (`NativeInstruction::is_ldrw_to_zr`):
bits 31..22 equal `0b1011100101` and bits 4..0 equal `0b11111`. -/
def NativeInstruction.is_ldrw_to_zr (w : Nat) : Bool :=
  Instruction_aarch64.extract w 31 22 == 0b1011100101 &&
    Instruction_aarch64.extract w 4 0 == 0b11111

/-- Safepoint-poll heuristic (`NativeInstruction::is_safepoint_poll`): only
checks that the marked instruction is a load word to zr. -/
def NativeInstruction.is_safepoint_poll (w : Nat) : Bool :=
  NativeInstruction.is_ldrw_to_zr w

/-- Modelled from the spec: the branch-register family test
(`NativeInstruction::is_blr` of the missing header): bits 31..25 are the
`0b1101011` branch-register opcode block, bits 20..16 are `0b11111`, and
bits 4..0 are zero (covers BR/BLR/RET). -/
def NativeInstruction.is_blr (w : Nat) : Bool :=
  Instruction_aarch64.extract w 31 25 == 0b1101011 &&
    Instruction_aarch64.extract w 20 16 == 0b11111 &&
    Instruction_aarch64.extract w 4 0 == 0

/-- Stop test (`NativeInstruction::is_stop`): the fixed word
`0xd4bbd5c1` (`dcps1 #0xdeae`). -/
def NativeInstruction.is_stop (w : Nat) : Bool :=
  w == 0xd4bbd5c1

/-- `NativeInstruction::is_general_jump`: the word at the site is MOVZ,
followed (at successive 4-byte addresses) by MOVK, MOVK and a
branch-register instruction; translated from the source's nested
early-return chain. -/
def NativeInstruction.is_general_jump (s : State) (a : Int) : Bool :=
  if NativeInstruction.is_movz (s.w32 a) then
    if NativeInstruction.is_movk (s.w32 (a + 4)) then
      if NativeInstruction.is_movk (s.w32 (a + 8)) then
        if NativeInstruction.is_blr (s.w32 (a + 12)) then true
        else false
      else false
    else false
  else false

/-- Constant-pool-reference test (`NativeInstruction::maybe_cpool_ref` of
the missing header, modelled from the spec: the site is a pool reference
when it is an address-of-page or load-register-literal encoding). -/
def NativeInstruction.maybe_cpool_ref (w : Nat) : Bool :=
  NativeInstruction.is_adrp_at w || NativeInstruction.is_ldr_literal_at w

/-! ## Branch encoding and the direct call site -/

/-- Sign-extend a 26-bit immediate. -/
def signExt26 (i : Nat) : Int :=
  if i < 2 ^ 25 then (i : Int) else (i : Int) - 2 ^ 26

/-- Modelled from the spec: `NativeCall::displacement()` of the missing
header decodes the signed, 4-byte-scaled 26-bit immediate of the
branch-with-link word (`(int_at(0) << 6) >> 4`). -/
def NativeCall.displacement (w : Nat) : Int :=
  signExt26 (w % 2 ^ 26) * 4

/-- Modelled from the spec: the branch-with-link encoding written by
`NativeCall::set_destination` of the missing header: opcode bits `100101`
over a 26-bit two's-complement immediate of `(d - a) / 4`. -/
def encBranch (a d : Int) : Nat :=
  0x94000000 + ((d - a) / 4 % (2 ^ 26 : Int)).toNat

/-- Modelled from the spec: `Assembler::reachable_from_branch_at`: the
target is within the signed 26-bit times-4 branch range,
`|target - branch| < 2 ^ 27`. -/
def reachableFromBranchAt (a d : Int) : Bool :=
  (d - a).natAbs < 2 ^ 27

/-- Decoding inverts encoding inside the representable branch range. -/
theorem displacement_encBranch (a d : Int) (h4 : (d - a) % 4 = 0)
    (hlo : -(2 ^ 27) ≤ d - a) (hhi : d - a < 2 ^ 27) :
    NativeCall.displacement (encBranch a d) = d - a := by
  unfold NativeCall.displacement encBranch signExt26
  have hq : ((d - a) / 4) * 4 = d - a := by omega
  have hqlo : -(2 ^ 25 : Int) ≤ (d - a) / 4 := by omega
  have hqhi : (d - a) / 4 < (2 ^ 25 : Int) := by omega
  have hm : ((d - a) / 4 % (2 ^ 26 : Int)).toNat < 2 ^ 26 := by omega
  have hmod : (0x94000000 + ((d - a) / 4 % (2 ^ 26 : Int)).toNat) % 2 ^ 26
      = ((d - a) / 4 % (2 ^ 26 : Int)).toNat := by omega
  rw [hmod]
  by_cases h : ((d - a) / 4 % (2 ^ 26 : Int)).toNat < 2 ^ 25
  · rw [if_pos h]
    omega
  · rw [if_neg h]
    omega

/-! ## Trampoline stub and the direct call site -/

/-- Modelled from the spec: offset of the trampoline stub's pointer-sized
destination slot behind its two-instruction prologue
(`NativeCallTrampolineStub::data_offset` of the missing header). -/
def trampolineDataOffset : Int := 8

/-- Modelled from the spec: the recognizable first prologue word of a
trampoline stub (`is_NativeCallTrampolineStub_at` of the missing header): a
load-register-literal of the destination slot. -/
def trampolinePrologueWord : Nat := 0x58000048

/-- Trampoline recognition (`is_NativeCallTrampolineStub_at`, modelled from
the spec): the word at the address is the trampoline prologue. -/
def is_NativeCallTrampolineStub_at (s : State) (p : Int) : Bool :=
  s.w32 p == trampolinePrologueWord

/-- `NativeCallTrampolineStub::destination`: read the pointer-sized slot at
`data_offset`. -/
def NativeCallTrampolineStub.destination (s : State) (p : Int) : Int :=
  s.w64 (p + trampolineDataOffset)

/-- `NativeCallTrampolineStub::set_destination`: write the slot; the
trailing `OrderAccess::release()` has no effect on the sequential final
state (it is recorded as an event in the patching trace below). -/
def NativeCallTrampolineStub.set_destination (s : State) (p : Int) (d : Int) : State :=
  upd64 s (p + trampolineDataOffset) d

/-- `NativeCall::destination`: resolve the branch immediate; a self-call is
returned as-is without consulting the blob registry; a target inside the
owning unit's stub region that is a recognized trampoline resolves through
the trampoline's slot. -/
def NativeCall.destination (env : Env) (s : State) (a : Int) : Int :=
  let dest := a + NativeCall.displacement (s.w32 a)
  if dest = a then dest
  else if env.stubContains dest && is_NativeCallTrampolineStub_at s dest then
    NativeCallTrampolineStub.destination s dest
  else dest

/-- `NativeCall::get_trampoline`: if the branch immediate already targets a
recognized trampoline in the stub region, return it; otherwise ask the
external relocation table for the trampoline reserved for this call site
(`0` means none). -/
def NativeCall.get_trampoline (env : Env) (s : State) (a : Int) : Int :=
  let bl_destination := a + NativeCall.displacement (s.w32 a)
  if env.stubContains bl_destination &&
      is_NativeCallTrampolineStub_at s bl_destination then bl_destination
  else env.trampolineFor a

/-! ## Atomic patching events

`NativeCall::set_destination_mt_safe` is modelled as a sequence of atomic
events (each a single aligned word or pointer store, the release fence, or
a cache invalidation), reflecting the spec's unit of atomic replacement: a
concurrent reader observes the state after some prefix of the trace. -/

/-- One atomic step of a patching operation. -/
inductive Ev where
  | w32ev (p : Int) (v : Nat)
  | w64ev (p : Int) (v : Int)
  | fence
  | inval (p : Int) (n : Nat)
deriving DecidableEq

/-- Apply one atomic event to the state. -/
def applyEv (s : State) : Ev → State
  | Ev.w32ev p v => upd32 s p v
  | Ev.w64ev p v => upd64 s p v
  | Ev.fence => s
  | Ev.inval p n => { s with icache := (p, n) :: s.icache }

/-- Run a sequence of atomic events. -/
def runEvs (s : State) (l : List Ev) : State :=
  l.foldl applyEv s

/-- The atomic-event trace of `NativeCall::set_destination_mt_safe(dest)`,
in source order: if a trampoline is associated, first the release-ordered
store of `dest` into its slot; then the single-word rewrite of the call —
directly to `dest` when reachable, else to the trampoline address (the
source's release build writes a branch to the null trampoline when none
exists, `0` here); finally `ICache::invalidate_range(addr, 4)`. -/
def NativeCall.set_destination_mt_safe_trace (env : Env) (s : State) (a dest : Int) :
    List Ev :=
  let t := NativeCall.get_trampoline env s a
  (if t ≠ 0 then [Ev.w64ev (t + trampolineDataOffset) dest, Ev.fence] else []) ++
    [if reachableFromBranchAt a dest then Ev.w32ev a (encBranch a dest)
     else Ev.w32ev a (encBranch a t),
     Ev.inval a 4]

/-- `NativeCall::set_destination_mt_safe`: the final state of the trace. -/
def NativeCall.set_destination_mt_safe (env : Env) (s : State) (a dest : Int) : State :=
  runEvs s (NativeCall.set_destination_mt_safe_trace env s a dest)

/-! ## Trap instructions -/

/-- `NativeIllegalInstruction::insert`: store the fixed word `0xd4bbd5a1`
(`dcps1 #0xdead`) at the address; the source performs no instruction-cache
invalidation here. -/
def NativeIllegalInstruction.insert (s : State) (p : Int) : State :=
  upd32 s p 0xd4bbd5a1

/-- `NativeDeoptInstruction::insert`: store the fixed word `0xd4ade001` at
the address, then `ICache::invalidate_range(code_pos, 4)`. -/
def NativeDeoptInstruction.insert (s : State) (p : Int) : State :=
  let s1 := upd32 s p 0xd4ade001
  { s1 with icache := (p, 4) :: s1.icache }

/-! ## Constant-load site (NativeMovConstReg) -/

/-- Modelled from the spec: byte size of the multi-word constant-load
template (`NativeMovConstReg::instruction_size` of the missing header). -/
def NativeMovConstReg.instruction_size : Nat := 12

/-- `NativeMovConstReg::data`: resolve the computed target address; a pool
reference dereferences the pool slot, otherwise the address itself is the
data. -/
def NativeMovConstReg.data (s : State) (a : Int) : Int :=
  let addr := s.insnTarget a
  if NativeInstruction.maybe_cpool_ref (s.w32 a) then s.w64 addr
  else addr

/-- Update the out-of-band slot of the first object-reference or
type-metadata relocation record, leaving later records untouched
(the `RelocIterator` loop of `NativeMovConstReg::set_data`, which breaks
after the first match). -/
def applyFirstReloc (x : Int) : List Reloc → (Int → Int) → (Int → Int)
  | [], m => m
  | r :: rs, m =>
    if r.rtype = RelocType.oopType then fun q => if q = r.slotAddr then x else m q
    else if r.rtype = RelocType.metadataType then fun q => if q = r.slotAddr then x else m q
    else applyFirstReloc x rs m

/-- `NativeMovConstReg::set_data`: a pool reference stores straight into
the pool slot (no instruction mutation, no cache invalidation); otherwise
the embedded operand is re-encoded via the external encoder and the cache
is invalidated over the template; afterwards, if the owning blob is a
compiled unit, the first overlapping oop/metadata relocation record's slot
is updated as well. -/
def NativeMovConstReg.set_data (env : Env) (s : State) (a : Int) (x : Int) : State :=
  let s1 :=
    if NativeInstruction.maybe_cpool_ref (s.w32 a) then
      upd64 s (s.insnTarget a) x
    else
      { s with insnTarget := fun q => if q = a then x else s.insnTarget q,
               icache := (a, NativeMovConstReg.instruction_size) :: s.icache }
  if env.hasNm a then
    { s1 with refSlot := applyFirstReloc x (env.relocsAt a) s1.refSlot }
  else s1

/-! ## Memory-access site (NativeMovRegMem) -/

/-- Reinterpret a two's-complement value as a signed 32-bit integer
(the C `(int)(intptr_t)` narrowing). -/
def toInt32 (n : Int) : Int :=
  (n + 2 ^ 31) % (2 ^ 32 : Int) - 2 ^ 31

/-- Low byte of a pointer-sized cell (the source's `return *addr` reads a
single `u_char` through the computed address; little-endian first byte of
the two's-complement representation). -/
def byteAt64 (v : Int) : Nat :=
  (v % (2 ^ 64 : Int)).toNat % 2 ^ 8

/-- `NativeMovRegMem::offset`: for the address-of-page family (bits 28..24
equal `0b10000`) the offset is read back through the computed target
address as a single byte (`return *addr`, `addr` being a `u_char*`);
otherwise it is the computed target address narrowed to `int`. -/
def NativeMovRegMem.offset (s : State) (a : Int) : Int :=
  if Instruction_aarch64.extract (s.w32 a) 28 24 == 0b10000 then
    (byteAt64 (s.w64 (s.insnTarget a)) : Int)
  else
    toInt32 (s.insnTarget a)

/-- `NativeMovRegMem::set_offset`: a pool reference stores `x` as a 64-bit
value into the pool slot; otherwise the embedded offset is re-encoded via
the external encoder and the cache invalidated over the word. -/
def NativeMovRegMem.set_offset (s : State) (a : Int) (x : Int) : State :=
  if NativeInstruction.maybe_cpool_ref (s.w32 a) then
    upd64 s (s.insnTarget a) x
  else
    { s with insnTarget := fun q => if q = a then x else s.insnTarget q,
             icache := (a, 4) :: s.icache }

/-! ## Direct and general jump sites -/

/-- `NativeJump::jump_destination`: the decoded target, with a self-jump or
null target normalized to the distinguished unresolved marker `-1`
(`(address)-1`); a null decode (`target_addr_for_insn_or_null`) is `0`
here. -/
def NativeJump.jump_destination (s : State) (a : Int) : Int :=
  let dest := s.insnTarget a
  if dest = a ∨ dest = 0 then -1 else dest

/-- `NativeJump::set_jump_destination`: the unresolved marker is converted
back to a concrete jump-to-self before the external encoder patches the
branch; the cache is invalidated over the instruction. -/
def NativeJump.set_jump_destination (s : State) (a : Int) (dest : Int) : State :=
  let d := if dest = -1 then a else dest
  { s with insnTarget := fun q => if q = a then d else s.insnTarget q,
           icache := (a, 4) :: s.icache }

/-- `NativeGeneralJump::jump_destination`: read the embedded constant-load
site's data, with the same self/null normalization to `-1`. -/
def NativeGeneralJump.jump_destination (s : State) (a : Int) : Int :=
  let dest := NativeMovConstReg.data s a
  if dest = a ∨ dest = 0 then -1 else dest

/-- `NativeGeneralJump::set_jump_destination`: the unresolved marker
becomes the site's own address, then the embedded constant-load site's
`set_data` stores it. -/
def NativeGeneralJump.set_jump_destination (env : Env) (s : State) (a : Int)
    (dest : Int) : State :=
  let d := if dest = -1 then a else dest
  NativeMovConstReg.set_data env s a d

/-! ## Post-call metadata slot (NativePostCallNop) -/

/-- Unsigned 32-bit reinterpretation of a C `int32_t` value
(the `(uint32_t)` cast). -/
def u32 (x : Int) : Nat :=
  (x % (2 ^ 32 : Int)).toNat

/-- C bitwise-and of an `int32_t` with a non-negative mask constant: the
two's-complement bits of `x` and-ed with the mask, yielding a non-negative
`int`. -/
def land32 (x : Int) (m : Nat) : Int :=
  ((u32 x) &&& m : Nat)

/-- `NativePostCallNop::patch(oopmap_slot, cb_offset)`: fails (and mutates
nothing) unless the slot fits 8 bits and the offset 24 bits; on success
packs `slot << 24 | offset` and stores the low and high 16-bit halves into
bits 20..5 of the two placeholder words at offsets 4 and 8. -/
def NativePostCallNop.patch (s : State) (a : Int) (oopmap_slot cb_offset : Int) :
    Bool × State :=
  if land32 oopmap_slot 0xff ≠ oopmap_slot ∨ land32 cb_offset 0xffffff ≠ cb_offset then
    (false, s)
  else
    let data : Nat := ((u32 oopmap_slot <<< 24) % 2 ^ 32) ||| u32 cb_offset
    let lo := data &&& 0xffff
    let hi := data >>> 16
    let s1 := upd32 s (a + 4) (Instruction_aarch64.patch (s.w32 (a + 4)) 20 5 lo)
    let s2 := upd32 s1 (a + 8) (Instruction_aarch64.patch (s1.w32 (a + 8)) 20 5 hi)
    (true, s2)

/-- `NativePostCallNop::make_deopt`: overwrite the first word of the slot
with the deopt trap. -/
def NativePostCallNop.make_deopt (s : State) (a : Int) : State :=
  NativeDeoptInstruction.insert s a

/-- Modelled from the spec: decoding the packed post-call metadata back out
of the two placeholder words, layout bits 31..24 the slot index and bits
23..0 the code offset. -/
def NativePostCallNop.decodeData (s : State) (a : Int) : Nat :=
  Instruction_aarch64.extract (s.w32 (a + 4)) 20 5 |||
    (Instruction_aarch64.extract (s.w32 (a + 8)) 20 5 <<< 16)

/-- The decoded slot index: bits 31..24 of the packed value. -/
def NativePostCallNop.decodeSlot (s : State) (a : Int) : Nat :=
  NativePostCallNop.decodeData s a >>> 24

/-- The decoded code offset: bits 23..0 of the packed value. -/
def NativePostCallNop.decodeOffset (s : State) (a : Int) : Nat :=
  NativePostCallNop.decodeData s a &&& 0xffffff

/-! ## Helper lemmas -/

/-- A field patched into bits 20..5 reads back unchanged. -/
theorem extract_patch_20_5 (w v : Nat) (hv : v < 2 ^ 16) :
    Instruction_aarch64.extract (Instruction_aarch64.patch w 20 5 v) 20 5 = v := by
  unfold Instruction_aarch64.extract Instruction_aarch64.patch
  simp only [show (20 - 5 + 1 : Nat) = 16 from rfl, Nat.and_pow_two_sub_one_eq_mod,
    Nat.shiftLeft_eq, Nat.shiftRight_eq_div_pow]
  omega

/-- A sample all-zero machine state used for concrete instantiations. -/
def sampleState : State :=
  { w32 := fun _ => 0, w64 := fun _ => 0, insnTarget := fun _ => 0,
    refSlot := fun _ => 0, icache := [] }


/-- Reading the word just written. -/
theorem upd32_w32_self (s : State) (p : Int) (v : Nat) : (upd32 s p v).w32 p = v := by
  simp [upd32]

/-- Reading another word after a write. -/
theorem upd32_w32_other (s : State) (p : Int) (v : Nat) (q : Int) (h : q ≠ p) :
    (upd32 s p v).w32 q = s.w32 q := by
  simp [upd32, h]

/-- A 32-bit write leaves the data cells unchanged. -/
theorem upd32_w64 (s : State) (p : Int) (v : Nat) : (upd32 s p v).w64 = s.w64 := rfl

/-- Reading the cell just written. -/
theorem upd64_w64_self (s : State) (p : Int) (v : Int) : (upd64 s p v).w64 p = v := by
  simp [upd64]

/-- Reading another cell after a write. -/
theorem upd64_w64_other (s : State) (p : Int) (v : Int) (q : Int) (h : q ≠ p) :
    (upd64 s p v).w64 q = s.w64 q := by
  simp [upd64, h]

/-- A 64-bit write leaves the instruction words unchanged. -/
theorem upd64_w32 (s : State) (p : Int) (v : Int) : (upd64 s p v).w32 = s.w32 := rfl

/-! ## Claim C3: post-call metadata packing round-trip -/

/-- Claim C3: for every slot index in `[0, 255]` and every code offset in
`[0, 0xFFFFFF]`, `NativePostCallNop::patch(slot, offset)` succeeds (returns
true), and the immediate fields of the two placeholder instructions it
wrote decode back to exactly the pair `(slot, offset)` under the layout
bits 31..24 = slot, bits 23..0 = offset. -/
theorem claim_C3 (s : State) (a : Int) (oopmap_slot cb_offset : Int)
    (hs : 0 ≤ oopmap_slot ∧ oopmap_slot ≤ 255)
    (ho : 0 ≤ cb_offset ∧ cb_offset ≤ 0xffffff) :
    (NativePostCallNop.patch s a oopmap_slot cb_offset).1 = true ∧
    (NativePostCallNop.decodeSlot (NativePostCallNop.patch s a oopmap_slot cb_offset).2 a : Int)
      = oopmap_slot ∧
    (NativePostCallNop.decodeOffset (NativePostCallNop.patch s a oopmap_slot cb_offset).2 a : Int)
      = cb_offset := by
  have hg1 : land32 oopmap_slot 0xff = oopmap_slot := by
    unfold land32 u32
    rw [show (0xff : Nat) = 2 ^ 8 - 1 from rfl, Nat.and_pow_two_sub_one_eq_mod]
    omega
  have hg2 : land32 cb_offset 0xffffff = cb_offset := by
    unfold land32 u32
    rw [show (0xffffff : Nat) = 2 ^ 24 - 1 from rfl, Nat.and_pow_two_sub_one_eq_mod]
    omega
  have hguard : ¬(land32 oopmap_slot 0xff ≠ oopmap_slot ∨
      land32 cb_offset 0xffffff ≠ cb_offset) := by
    simp [hg1, hg2]
  have hu1 : u32 oopmap_slot = oopmap_slot.toNat := by
    unfold u32
    omega
  have hu2 : u32 cb_offset = cb_offset.toNat := by
    unfold u32
    omega
  set n := oopmap_slot.toNat with hn
  set m := cb_offset.toNat with hm
  have hnlt : n < 2 ^ 8 := by omega
  have hmlt : m < 2 ^ 24 := by omega
  have hdata : ((u32 oopmap_slot <<< 24) % 2 ^ 32) ||| u32 cb_offset = n * 2 ^ 24 + m := by
    rw [hu1, hu2]
    have hsh : n <<< 24 = n * 2 ^ 24 := Nat.shiftLeft_eq n 24
    have hlt : n <<< 24 < 2 ^ 32 := by omega
    rw [Nat.mod_eq_of_lt hlt, shiftLeft_lor_eq_add n m 24 hmlt, hsh]
  have hpatch : NativePostCallNop.patch s a oopmap_slot cb_offset =
      (true,
       upd32 (upd32 s (a + 4)
           (Instruction_aarch64.patch (s.w32 (a + 4)) 20 5 ((n * 2 ^ 24 + m) &&& 0xffff)))
         (a + 8)
         (Instruction_aarch64.patch (s.w32 (a + 8)) 20 5 ((n * 2 ^ 24 + m) >>> 16))) := by
    unfold NativePostCallNop.patch
    rw [if_neg hguard]
    dsimp only
    rw [hdata, upd32_w32_other s (a + 4) _ (a + 8) (by omega)]
  rw [hpatch]
  dsimp only
  set dd := n * 2 ^ 24 + m with hdd
  have hlo16 : dd &&& 0xffff < 2 ^ 16 := by
    rw [show (0xffff : Nat) = 2 ^ 16 - 1 from rfl, Nat.and_pow_two_sub_one_eq_mod]
    omega
  have hhi16 : dd >>> 16 < 2 ^ 16 := by
    rw [Nat.shiftRight_eq_div_pow]
    omega
  have hw4 : (upd32 (upd32 s (a + 4)
      (Instruction_aarch64.patch (s.w32 (a + 4)) 20 5 (dd &&& 0xffff))) (a + 8)
      (Instruction_aarch64.patch (s.w32 (a + 8)) 20 5 (dd >>> 16))).w32 (a + 4)
      = Instruction_aarch64.patch (s.w32 (a + 4)) 20 5 (dd &&& 0xffff) := by
    rw [upd32_w32_other _ (a + 8) _ (a + 4) (by omega), upd32_w32_self]
  have hw8 : (upd32 (upd32 s (a + 4)
      (Instruction_aarch64.patch (s.w32 (a + 4)) 20 5 (dd &&& 0xffff))) (a + 8)
      (Instruction_aarch64.patch (s.w32 (a + 8)) 20 5 (dd >>> 16))).w32 (a + 8)
      = Instruction_aarch64.patch (s.w32 (a + 8)) 20 5 (dd >>> 16) := by
    rw [upd32_w32_self]
  have hdec : NativePostCallNop.decodeData (upd32 (upd32 s (a + 4)
      (Instruction_aarch64.patch (s.w32 (a + 4)) 20 5 (dd &&& 0xffff))) (a + 8)
      (Instruction_aarch64.patch (s.w32 (a + 8)) 20 5 (dd >>> 16))) a
      = (dd >>> 16) * 2 ^ 16 + (dd &&& 0xffff) := by
    unfold NativePostCallNop.decodeData
    rw [hw4, hw8, extract_patch_20_5 _ _ hlo16, extract_patch_20_5 _ _ hhi16,
      Nat.lor_comm, shiftLeft_lor_eq_add _ _ 16 hlo16, Nat.shiftLeft_eq]
  refine ⟨rfl, ?_, ?_⟩
  · unfold NativePostCallNop.decodeSlot
    rw [hdec]
    rw [show (0xffff : Nat) = 2 ^ 16 - 1 from rfl, Nat.and_pow_two_sub_one_eq_mod,
      Nat.shiftRight_eq_div_pow, Nat.shiftRight_eq_div_pow]
    omega
  · unfold NativePostCallNop.decodeOffset
    rw [hdec]
    rw [show (0xffff : Nat) = 2 ^ 16 - 1 from rfl,
      show (0xffffff : Nat) = 2 ^ 24 - 1 from rfl, Nat.and_pow_two_sub_one_eq_mod,
      Nat.and_pow_two_sub_one_eq_mod, Nat.shiftRight_eq_div_pow]
    omega

/-- Witness for claim C3 at slot 5, offset 7 on the all-zero state. -/
theorem claim_C3_witness :
    (0 ≤ (5 : Int) ∧ (5 : Int) ≤ 255) ∧ (0 ≤ (7 : Int) ∧ (7 : Int) ≤ 0xffffff) ∧
    ((NativePostCallNop.patch sampleState 0 5 7).1 = true ∧
     (NativePostCallNop.decodeSlot (NativePostCallNop.patch sampleState 0 5 7).2 0 : Int) = 5 ∧
     (NativePostCallNop.decodeOffset (NativePostCallNop.patch sampleState 0 5 7).2 0 : Int) = 7) :=
  ⟨by decide, by decide, claim_C3 sampleState 0 5 7 (by decide) (by decide)⟩

/-! ## Claim C10: post-call metadata overflow rejection -/

/-- Claim C10: for every slot index and code offset where the slot is
outside `[0, 255]` or the offset is outside `[0, 0xFFFFFF]` (within the
`int32_t` argument range), `NativePostCallNop::patch(slot, offset)` returns
false and performs no mutation: the state is exactly as it was before the
call. -/
theorem claim_C10 (s : State) (a : Int) (oopmap_slot cb_offset : Int)
    (h32s : -(2 ^ 31) ≤ oopmap_slot ∧ oopmap_slot < 2 ^ 31)
    (h32o : -(2 ^ 31) ≤ cb_offset ∧ cb_offset < 2 ^ 31)
    (hbad : ¬(0 ≤ oopmap_slot ∧ oopmap_slot ≤ 255) ∨
      ¬(0 ≤ cb_offset ∧ cb_offset ≤ 0xffffff)) :
    NativePostCallNop.patch s a oopmap_slot cb_offset = (false, s) := by
  have hguard : land32 oopmap_slot 0xff ≠ oopmap_slot ∨
      land32 cb_offset 0xffffff ≠ cb_offset := by
    rcases hbad with h | h
    · left
      unfold land32 u32
      rw [show (0xff : Nat) = 2 ^ 8 - 1 from rfl, Nat.and_pow_two_sub_one_eq_mod]
      omega
    · right
      unfold land32 u32
      rw [show (0xffffff : Nat) = 2 ^ 24 - 1 from rfl, Nat.and_pow_two_sub_one_eq_mod]
      omega
  unfold NativePostCallNop.patch
  rw [if_pos hguard]

/-- Witness for claim C10 at the claim's own example `slot = 256`. -/
theorem claim_C10_witness :
    ((-(2 ^ 31) ≤ (256 : Int) ∧ (256 : Int) < 2 ^ 31) ∧
     (-(2 ^ 31) ≤ (0 : Int) ∧ (0 : Int) < 2 ^ 31)) ∧
    NativePostCallNop.patch sampleState 0 256 0 = (false, sampleState) :=
  ⟨⟨by decide, by decide⟩,
   claim_C10 sampleState 0 256 0 (by decide) (by decide) (by decide)⟩

/-! ## Claim C8: general-jump classification -/

/-- Claim C8: `is_general_jump()` returns true exactly when the four
consecutive words classify, in order, as MOVZ, MOVK, MOVK and
branch-register; and substituting an instruction that fails its class
test (here at the second-MOVK position, as in the claim's example) makes
it return false. -/
theorem claim_C8 (s : State) (a : Int) :
    (NativeInstruction.is_general_jump s a = true ↔
      (NativeInstruction.is_movz (s.w32 a) = true ∧
       NativeInstruction.is_movk (s.w32 (a + 4)) = true ∧
       NativeInstruction.is_movk (s.w32 (a + 8)) = true ∧
       NativeInstruction.is_blr (s.w32 (a + 12)) = true)) ∧
    (∀ v : Nat, NativeInstruction.is_movk v = false →
      NativeInstruction.is_general_jump (upd32 s (a + 8) v) a = false) := by
  constructor
  · unfold NativeInstruction.is_general_jump
    split_ifs with h1 h2 h3 h4 <;> simp_all
  · intro v hv
    unfold NativeInstruction.is_general_jump
    have e0 : (a : Int) ≠ a + 8 := by omega
    have e1 : (a + 4 : Int) ≠ a + 8 := by omega
    rw [upd32_w32_other s (a + 8) v a e0, upd32_w32_other s (a + 8) v (a + 4) e1,
      upd32_w32_self s (a + 8) v]
    split_ifs with h1 h2 <;> simp_all

/-- A concrete four-word general-jump sequence:
`movz x8, #0; movk x8, #0, lsl 16; movk x8, #0, lsl 16; br x8`. -/
def gjState : State :=
  { sampleState with
    w32 := fun p =>
      if p = 0 then 0xd2800008
      else if p = 4 then 0xf2a00008
      else if p = 8 then 0xf2a00008
      else if p = 12 then 0xd61f0100
      else 0 }

/-- Witness for claim C8: the concrete sequence classifies as a general
jump, and replacing the second MOVK by the no-op word `0xd503201f` breaks
the classification. -/
theorem claim_C8_witness :
    NativeInstruction.is_general_jump gjState 0 = true ∧
    NativeInstruction.is_movk 0xd503201f = false ∧
    NativeInstruction.is_general_jump (upd32 gjState (0 + 8) 0xd503201f) 0 = false :=
  ⟨(claim_C8 gjState 0).1.mpr (by decide),
   by decide,
   (claim_C8 gjState 0).2 0xd503201f (by decide)⟩

/-! ## Claim C4: trap insertion

The claim states that both `NativeDeoptInstruction::insert` and
`NativeIllegalInstruction::insert` invalidate the instruction cache over
the written word.  The source contradicts this for
`NativeIllegalInstruction::insert`, which stores `0xd4bbd5a1` and returns
without any `ICache` call; only the deopt variant invalidates. -/

/-- Claim C4 counterexample: at address `0`, `NativeIllegalInstruction::insert`
writes the trap word but records no instruction-cache invalidation at all —
in particular no invalidation covering the written word — refuting the
claim that each trap-insertion operation invalidates the cache. -/
theorem claim_C4_counterexample :
    (NativeIllegalInstruction.insert sampleState 0).w32 0 = 0xd4bbd5a1 ∧
    (NativeIllegalInstruction.insert sampleState 0).icache = [] ∧
    ¬((0, 4) ∈ (NativeIllegalInstruction.insert sampleState 0).icache) := by
  refine ⟨by decide, rfl, by decide⟩

/-- Claim C4 as amended: `NativeDeoptInstruction::insert(addr)` writes the
single fixed word `0xd4ade001` at `addr` (and nowhere else) and invalidates
the instruction cache over that word; `NativeIllegalInstruction::insert(addr)`
writes the single fixed word `0xd4bbd5a1` at `addr` (and nowhere else)
without touching the instruction cache; the two encodings are distinct. -/
theorem claim_C4_amended (s : State) (p : Int) :
    (NativeDeoptInstruction.insert s p).w32 p = 0xd4ade001 ∧
    (NativeDeoptInstruction.insert s p).icache = (p, 4) :: s.icache ∧
    (∀ q, q ≠ p → (NativeDeoptInstruction.insert s p).w32 q = s.w32 q) ∧
    (NativeIllegalInstruction.insert s p).w32 p = 0xd4bbd5a1 ∧
    (NativeIllegalInstruction.insert s p).icache = s.icache ∧
    (∀ q, q ≠ p → (NativeIllegalInstruction.insert s p).w32 q = s.w32 q) ∧
    (0xd4ade001 : Nat) ≠ 0xd4bbd5a1 := by
  unfold NativeDeoptInstruction.insert NativeIllegalInstruction.insert
  refine ⟨upd32_w32_self s p _, rfl, ?_, upd32_w32_self s p _, rfl, ?_, by decide⟩
  · intro q hq
    exact upd32_w32_other s p _ q hq
  · intro q hq
    exact upd32_w32_other s p _ q hq

/-- Witness for claim C4 at address `0` on the all-zero state. -/
theorem claim_C4_witness :
    (NativeDeoptInstruction.insert sampleState 0).w32 0 = 0xd4ade001 ∧
    (NativeDeoptInstruction.insert sampleState 0).icache = [(0, 4)] ∧
    (NativeDeoptInstruction.insert sampleState 0).w32 4 = sampleState.w32 4 ∧
    (NativeIllegalInstruction.insert sampleState 0).icache = sampleState.icache :=
  ⟨(claim_C4_amended sampleState 0).1,
   (claim_C4_amended sampleState 0).2.1,
   (claim_C4_amended sampleState 0).2.2.1 4 (by decide),
   (claim_C4_amended sampleState 0).2.2.2.2.1⟩

/-! ## Claim C5: call destination resolution -/

/-- Claim C5: `NativeCall::destination()` returns the immediate target
unchanged and without any blob lookup when it equals the call's own
address (the result is independent of the environment); otherwise, when
the immediate target lies in the owning unit's stub region and is a
recognized trampoline stub, it returns the trampoline's stored
destination; in all remaining cases it returns the immediate target. -/
theorem claim_C5 (env : Env) (s : State) (a : Int) :
    (a + NativeCall.displacement (s.w32 a) = a →
      ∀ envp : Env, NativeCall.destination envp s a = a) ∧
    (a + NativeCall.displacement (s.w32 a) ≠ a →
      (env.stubContains (a + NativeCall.displacement (s.w32 a)) &&
        is_NativeCallTrampolineStub_at s (a + NativeCall.displacement (s.w32 a))) = true →
      NativeCall.destination env s a =
        NativeCallTrampolineStub.destination s (a + NativeCall.displacement (s.w32 a))) ∧
    (a + NativeCall.displacement (s.w32 a) ≠ a →
      (env.stubContains (a + NativeCall.displacement (s.w32 a)) &&
        is_NativeCallTrampolineStub_at s (a + NativeCall.displacement (s.w32 a))) = false →
      NativeCall.destination env s a = a + NativeCall.displacement (s.w32 a)) := by
  refine ⟨?_, ?_, ?_⟩
  · intro h envp
    unfold NativeCall.destination
    dsimp only
    rw [if_pos h, h]
  · intro h hc
    unfold NativeCall.destination
    dsimp only
    rw [if_neg h, if_pos hc]
  · intro h hc
    unfold NativeCall.destination
    dsimp only
    rw [if_neg h, if_neg (by simp [hc])]

/-- An environment whose compiled unit's stub region is exactly the
trampoline at `0x100`. -/
def callEnv : Env :=
  { stubContains := fun p => p == 0x100, trampolineFor := fun _ => 0,
    hasNm := fun _ => false, relocsAt := fun _ => [] }

/-- A call site at `0` branching to the trampoline at `0x100`, whose
destination slot holds the far target `0x9000000`. -/
def callState : State :=
  { w32 := fun p =>
      if p = 0 then encBranch 0 0x100
      else if p = 0x100 then trampolinePrologueWord
      else 0,
    w64 := fun q => if q = 0x108 then 0x9000000 else 0,
    insnTarget := fun _ => 0, refSlot := fun _ => 0, icache := [] }

/-- Witness for claim C5: the concrete call resolves through the
trampoline to the far target. -/
theorem claim_C5_witness :
    ((0 : Int) + NativeCall.displacement (callState.w32 0) ≠ 0) ∧
    ((callEnv.stubContains (0 + NativeCall.displacement (callState.w32 0)) &&
      is_NativeCallTrampolineStub_at callState
        (0 + NativeCall.displacement (callState.w32 0))) = true) ∧
    NativeCall.destination callEnv callState 0 = 0x9000000 :=
  ⟨by decide, by decide, by
    have h := (claim_C5 callEnv callState 0).2.1 (by decide) (by decide)
    rw [h]
    decide⟩

/-! ## Claim C7: jump sentinel round-trip -/

/-- `NativeMovConstReg::set_data` never changes the instruction words. -/
theorem set_data_w32 (env : Env) (s : State) (a x : Int) :
    (NativeMovConstReg.set_data env s a x).w32 = s.w32 := by
  unfold NativeMovConstReg.set_data
  by_cases h : NativeInstruction.maybe_cpool_ref (s.w32 a) <;>
    by_cases h2 : env.hasNm a <;> simp [h, h2, upd64]

/-- On a non-pool site, `set_data` re-encodes the site's operand. -/
theorem set_data_insnTarget_nonpool (env : Env) (s : State) (a x : Int)
    (h : NativeInstruction.maybe_cpool_ref (s.w32 a) = false) :
    (NativeMovConstReg.set_data env s a x).insnTarget a = x := by
  unfold NativeMovConstReg.set_data
  by_cases h2 : env.hasNm a <;> simp [h, h2]

/-- On a pool site, `set_data` leaves every encoded operand unchanged. -/
theorem set_data_insnTarget_pool (env : Env) (s : State) (a x : Int)
    (h : NativeInstruction.maybe_cpool_ref (s.w32 a) = true) :
    (NativeMovConstReg.set_data env s a x).insnTarget = s.insnTarget := by
  unfold NativeMovConstReg.set_data
  by_cases h2 : env.hasNm a <;> simp [h, h2, upd64]

/-- Claim C7: for direct jump sites and general jump sites alike,
`jump_destination()` returns the unresolved marker `-1` whenever the
computed target equals the site's own address or is null; and
`set_jump_destination(-1)` encodes a direct self-jump (for the general
form, stores the site's own address through the embedded constant-load
site), after which `jump_destination()` again returns `-1`. -/
theorem claim_C7 (env : Env) (s : State) (a : Int) :
    ((s.insnTarget a = a ∨ s.insnTarget a = 0) →
      NativeJump.jump_destination s a = -1) ∧
    (NativeJump.jump_destination (NativeJump.set_jump_destination s a (-1)) a = -1 ∧
     (NativeJump.set_jump_destination s a (-1)).insnTarget a = a) ∧
    ((NativeMovConstReg.data s a = a ∨ NativeMovConstReg.data s a = 0) →
      NativeGeneralJump.jump_destination s a = -1) ∧
    (NativeInstruction.maybe_cpool_ref (s.w32 a) = false →
      (NativeGeneralJump.jump_destination
          (NativeGeneralJump.set_jump_destination env s a (-1)) a = -1 ∧
        NativeMovConstReg.data (NativeGeneralJump.set_jump_destination env s a (-1)) a
          = a)) := by
  refine ⟨?_, ⟨?_, ?_⟩, ?_, ?_⟩
  · intro h
    unfold NativeJump.jump_destination
    dsimp only
    rw [if_pos h]
  · unfold NativeJump.jump_destination NativeJump.set_jump_destination
    simp
  · unfold NativeJump.set_jump_destination
    simp
  · intro h
    unfold NativeGeneralJump.jump_destination
    dsimp only
    rw [if_pos h]
  · intro h
    have hd : NativeMovConstReg.data (NativeGeneralJump.set_jump_destination env s a (-1)) a
        = a := by
      unfold NativeGeneralJump.set_jump_destination
      dsimp only
      rw [show ((if (-1 : Int) = -1 then a else -1) = a) from by simp]
      unfold NativeMovConstReg.data
      dsimp only
      rw [set_data_w32, set_data_insnTarget_nonpool env s a a h]
      simp [h]
    refine ⟨?_, hd⟩
    unfold NativeGeneralJump.jump_destination
    dsimp only
    rw [hd]
    simp

/-- The trivial environment: no stubs, no trampolines, no compiled unit. -/
def nilEnv : Env :=
  { stubContains := fun _ => false, trampolineFor := fun _ => 0,
    hasNm := fun _ => false, relocsAt := fun _ => [] }

/-- Witness for claim C7 at site `0` of the all-zero state (null target). -/
theorem claim_C7_witness :
    NativeJump.jump_destination sampleState 0 = -1 ∧
    NativeJump.jump_destination (NativeJump.set_jump_destination sampleState 0 (-1)) 0
      = -1 ∧
    (NativeJump.set_jump_destination sampleState 0 (-1)).insnTarget 0 = 0 ∧
    NativeGeneralJump.jump_destination
      (NativeGeneralJump.set_jump_destination nilEnv sampleState 0 (-1)) 0 = -1 :=
  ⟨(claim_C7 nilEnv sampleState 0).1 (Or.inr rfl),
   (claim_C7 nilEnv sampleState 0).2.1.1,
   (claim_C7 nilEnv sampleState 0).2.1.2,
   ((claim_C7 nilEnv sampleState 0).2.2.2 (by decide)).1⟩

/-! ## Claim C6: memory-access offset round-trip

The claim asserts `set_offset(x); offset() == x` for every site and every
`int` value `x`.  The source refutes this: on an address-of-page pool site
`set_offset` stores `x` as a 64-bit value through the pool address, but
`offset()` reads it back through a `u_char*` (`return *addr`), yielding
only the low byte. -/

/-- An ADRP constant-pool site at `0` whose computed pool address is
`0x100`. -/
def adrpState : State :=
  { w32 := fun p => if p = 0 then 0x90000008 else 0,
    w64 := fun _ => 0,
    insnTarget := fun q => if q = 0 then 0x100 else 0,
    refSlot := fun _ => 0, icache := [] }

/-- Claim C6 counterexample: on the ADRP pool site, `set_offset(256)`
followed by `offset()` returns `0`, not `256`. -/
theorem claim_C6_counterexample :
    NativeMovRegMem.offset (NativeMovRegMem.set_offset adrpState 0 256) 0 = 0 ∧
    (0 : Int) ≠ 256 :=
  ⟨by decide, by decide⟩

/-- Claim C6 as amended: for a site that is neither a pool reference nor
of the address-of-page read family, `set_offset(x)` then `offset()`
returns `x` (for `int`-range `x`); for an address-of-page pool site the
value stored through the pool address by `set_offset` is read back by
`offset()` only as its low byte, so the round-trip holds exactly when
`0 ≤ x < 256`. -/
theorem claim_C6_amended (s : State) (a : Int) (x : Int)
    (h32 : -(2 ^ 31) ≤ x ∧ x < 2 ^ 31) :
    (Instruction_aarch64.extract (s.w32 a) 28 24 ≠ 0b10000 →
      NativeInstruction.maybe_cpool_ref (s.w32 a) = false →
      NativeMovRegMem.offset (NativeMovRegMem.set_offset s a x) a = x) ∧
    (Instruction_aarch64.extract (s.w32 a) 28 24 = 0b10000 →
      NativeInstruction.maybe_cpool_ref (s.w32 a) = true →
      (NativeMovRegMem.offset (NativeMovRegMem.set_offset s a x) a
          = ((x % (2 ^ 64 : Int)).toNat % 2 ^ 8 : Nat) ∧
        (0 ≤ x → x < 2 ^ 8 →
          NativeMovRegMem.offset (NativeMovRegMem.set_offset s a x) a = x))) := by
  constructor
  · intro hext hpool
    unfold NativeMovRegMem.set_offset
    rw [if_neg (by simp [hpool])]
    unfold NativeMovRegMem.offset
    rw [if_neg (by simp [hext])]
    show toInt32 (if a = a then x else s.insnTarget a) = x
    rw [if_pos rfl]
    unfold toInt32
    omega
  · intro hext hpool
    have hoff : NativeMovRegMem.offset (NativeMovRegMem.set_offset s a x) a
        = ((x % (2 ^ 64 : Int)).toNat % 2 ^ 8 : Nat) := by
      unfold NativeMovRegMem.set_offset
      rw [if_pos (by simp [hpool])]
      unfold NativeMovRegMem.offset
      rw [show (upd64 s (s.insnTarget a) x).w32 = s.w32 from rfl,
        show (upd64 s (s.insnTarget a) x).insnTarget = s.insnTarget from rfl,
        if_pos (by simp [hext]), upd64_w64_self]
      rfl
    refine ⟨hoff, fun h0 h8 => ?_⟩
    rw [hoff]
    omega

/-- Witness for claim C6: a MOVZ (non-pool) site round-trips `77`; the
ADRP pool site round-trips the byte-range value `5`. -/
theorem claim_C6_witness :
    (Instruction_aarch64.extract (gjState.w32 0) 28 24 ≠ 0b10000 ∧
     NativeInstruction.maybe_cpool_ref (gjState.w32 0) = false ∧
     NativeMovRegMem.offset (NativeMovRegMem.set_offset gjState 0 77) 0 = 77) ∧
    (Instruction_aarch64.extract (adrpState.w32 0) 28 24 = 0b10000 ∧
     NativeInstruction.maybe_cpool_ref (adrpState.w32 0) = true ∧
     NativeMovRegMem.offset (NativeMovRegMem.set_offset adrpState 0 5) 0 = 5) :=
  ⟨⟨by decide, by decide,
    (claim_C6_amended gjState 0 77 (by decide)).1 (by decide) (by decide)⟩,
   ⟨by decide, by decide,
    ((claim_C6_amended adrpState 0 5 (by decide)).2 (by decide)
      (by decide)).2 (by decide) (by decide)⟩⟩

/-- The relocation scan updates exactly the first oop/metadata record's
slot and stops there. -/
theorem applyFirstReloc_first (x : Int) (pre : List Reloc) (r : Reloc)
    (post : List Reloc) (m : Int → Int)
    (hpre : ∀ p ∈ pre, p.rtype = RelocType.otherType)
    (hr : r.rtype = RelocType.oopType ∨ r.rtype = RelocType.metadataType) :
    applyFirstReloc x (pre ++ r :: post) m
      = fun q => if q = r.slotAddr then x else m q := by
  induction pre with
  | nil =>
    rw [List.nil_append]
    unfold applyFirstReloc
    rcases hr with h | h
    · rw [if_pos h]
    · rw [if_neg (by simp [h]), if_pos h]
  | cons p ps ih =>
    have hp : p.rtype = RelocType.otherType := hpre p (by simp)
    rw [List.cons_append]
    unfold applyFirstReloc
    rw [if_neg (by simp [hp]), if_neg (by simp [hp])]
    exact ih fun q hq => hpre q (by simp [hq])

/-! ## Claim C9: constant patch and relocation consistency -/

/-- On a non-pool site, `set_data` invalidates the cache over the
template. -/
theorem set_data_icache_nonpool (env : Env) (s : State) (a x : Int)
    (h : NativeInstruction.maybe_cpool_ref (s.w32 a) = false) :
    (NativeMovConstReg.set_data env s a x).icache
      = (a, NativeMovConstReg.instruction_size) :: s.icache := by
  unfold NativeMovConstReg.set_data
  by_cases h2 : env.hasNm a <;> simp [h, h2]

/-- On a pool site, `set_data` performs no cache invalidation. -/
theorem set_data_icache_pool (env : Env) (s : State) (a x : Int)
    (h : NativeInstruction.maybe_cpool_ref (s.w32 a) = true) :
    (NativeMovConstReg.set_data env s a x).icache = s.icache := by
  unfold NativeMovConstReg.set_data
  by_cases h2 : env.hasNm a <;> simp [h, h2, upd64]

/-- With an owning compiled unit, `set_data` rescans the relocation
records and updates the first matching reference slot. -/
theorem set_data_refSlot_nm (env : Env) (s : State) (a x : Int)
    (hnm : env.hasNm a = true) :
    (NativeMovConstReg.set_data env s a x).refSlot
      = applyFirstReloc x (env.relocsAt a) s.refSlot := by
  unfold NativeMovConstReg.set_data
  by_cases h : NativeInstruction.maybe_cpool_ref (s.w32 a) <;> simp [h, hnm, upd64]

/-- On a pool site, `set_data` stores straight into the pool cell. -/
theorem set_data_w64_pool (env : Env) (s : State) (a x : Int)
    (h : NativeInstruction.maybe_cpool_ref (s.w32 a) = true) :
    (NativeMovConstReg.set_data env s a x).w64
      = fun q => if q = s.insnTarget a then x else s.w64 q := by
  unfold NativeMovConstReg.set_data
  by_cases h2 : env.hasNm a <;> simp [h, h2, upd64]

/-- Claim C9: after `set_data(x)` on a constant-load site that is not a
pool reference, `data()` returns `x`, the cache is invalidated over the
rewritten range, and the first overlapping oop/metadata relocation
record's out-of-band slot is updated to `x`, the scan stopping there (all
other slots unchanged); for a pool-reference site, `x` is stored directly
into the pool slot with no instruction-stream mutation and no cache
invalidation. -/
theorem claim_C9 (env : Env) (s : State) (a : Int) (x : Int)
    (pre post : List Reloc) (r : Reloc)
    (hpre : ∀ p ∈ pre, p.rtype = RelocType.otherType)
    (hr : r.rtype = RelocType.oopType ∨ r.rtype = RelocType.metadataType)
    (hrel : env.relocsAt a = pre ++ r :: post)
    (hnm : env.hasNm a = true) :
    (NativeInstruction.maybe_cpool_ref (s.w32 a) = false →
      (NativeMovConstReg.data (NativeMovConstReg.set_data env s a x) a = x ∧
       (NativeMovConstReg.set_data env s a x).icache
         = (a, NativeMovConstReg.instruction_size) :: s.icache ∧
       (∀ q, (NativeMovConstReg.set_data env s a x).refSlot q
         = if q = r.slotAddr then x else s.refSlot q))) ∧
    (NativeInstruction.maybe_cpool_ref (s.w32 a) = true →
      ((NativeMovConstReg.set_data env s a x).w64 (s.insnTarget a) = x ∧
       (NativeMovConstReg.set_data env s a x).w32 = s.w32 ∧
       (NativeMovConstReg.set_data env s a x).insnTarget = s.insnTarget ∧
       (NativeMovConstReg.set_data env s a x).icache = s.icache)) := by
  constructor
  · intro hpool
    refine ⟨?_, set_data_icache_nonpool env s a x hpool, ?_⟩
    · unfold NativeMovConstReg.data
      rw [set_data_w32, set_data_insnTarget_nonpool env s a x hpool]
      rw [if_neg (by simp [hpool])]
    · intro q
      rw [set_data_refSlot_nm env s a x hnm, hrel,
        applyFirstReloc_first x pre r post s.refSlot hpre hr]
  · intro hpool
    refine ⟨?_, set_data_w32 env s a x, set_data_insnTarget_pool env s a x hpool,
      set_data_icache_pool env s a x hpool⟩
    rw [set_data_w64_pool env s a x hpool]
    simp

/-- An environment whose compiled unit yields one non-matching record and
two oop records for every instruction. -/
def relocEnv : Env :=
  { stubContains := fun _ => false, trampolineFor := fun _ => 0,
    hasNm := fun _ => true,
    relocsAt := fun _ =>
      [{ rtype := RelocType.otherType, slotAddr := 50 },
       { rtype := RelocType.oopType, slotAddr := 60 },
       { rtype := RelocType.oopType, slotAddr := 70 }] }

/-- A MOVZ constant-load site at `0`. -/
def movzState : State :=
  { sampleState with w32 := fun p => if p = 0 then 0xd2800008 else 0 }

/-- Witness for claim C9: patching `42` updates `data()`, the cache log,
and the first oop slot at `60`, leaving the later oop slot at `70`
untouched. -/
theorem claim_C9_witness :
    NativeInstruction.maybe_cpool_ref (movzState.w32 0) = false ∧
    NativeMovConstReg.data (NativeMovConstReg.set_data relocEnv movzState 0 42) 0 = 42 ∧
    (NativeMovConstReg.set_data relocEnv movzState 0 42).icache = [(0, 12)] ∧
    (NativeMovConstReg.set_data relocEnv movzState 0 42).refSlot 60 = 42 ∧
    (NativeMovConstReg.set_data relocEnv movzState 0 42).refSlot 70 = 0 := by
  have h := claim_C9 relocEnv movzState 0 42
      [{ rtype := RelocType.otherType, slotAddr := 50 }]
      [{ rtype := RelocType.oopType, slotAddr := 70 }]
      { rtype := RelocType.oopType, slotAddr := 60 }
      (by decide) (by decide) (by decide) (by decide)
  have h1 := h.1 (by decide)
  refine ⟨by decide, h1.1, ?_, ?_, ?_⟩
  · rw [h1.2.1]
    rfl
  · have h60 := h1.2.2 60
    simpa [movzState, sampleState] using h60
  · have h70 := h1.2.2 70
    simpa [movzState, sampleState] using h70

/-! ## Claims C1 and C2: mt-safe call redirection through a trampoline -/

/-- A call word branching to a recognized trampoline in the stub region
resolves to the trampoline's slot value. -/
theorem destination_through_trampoline (env : Env) (u : State) (a t dest : Int)
    (hw : u.w32 a = encBranch a t)
    (hta : t ≠ a) (h4 : (t - a) % 4 = 0)
    (hlo : -(2 ^ 27) ≤ t - a) (hhi : t - a < 2 ^ 27)
    (hst : env.stubContains t = true)
    (htr : is_NativeCallTrampolineStub_at u t = true)
    (hslot : u.w64 (t + trampolineDataOffset) = dest) :
    NativeCall.destination env u a = dest := by
  unfold NativeCall.destination
  dsimp only
  rw [hw, displacement_encBranch a t h4 hlo hhi,
    show a + (t - a) = t from by ring,
    if_neg hta, if_pos (by simp [hst, htr])]
  unfold NativeCallTrampolineStub.destination
  exact hslot

/-- With an associated trampoline and an out-of-range target, the
mt-safe patching trace is: slot store, release fence, call-word rewrite to
the trampoline, cache invalidation — in that order. -/
theorem mt_safe_trace_eq (env : Env) (s : State) (a dest t : Int)
    (hT : NativeCall.get_trampoline env s a = t)
    (hne : t ≠ 0)
    (hun : reachableFromBranchAt a dest = false) :
    NativeCall.set_destination_mt_safe_trace env s a dest
      = [Ev.w64ev (t + trampolineDataOffset) dest, Ev.fence,
         Ev.w32ev a (encBranch a t), Ev.inval a 4] := by
  unfold NativeCall.set_destination_mt_safe_trace
  dsimp only
  rw [hT, if_pos hne, if_neg (by simp [hun])]
  rfl

/-- Claim C1 as amended: for a call site whose current resolved target
`T0` is outside the directly-reachable branch range and that has an
associated trampoline stub, `set_destination_mt_safe(T1)` with `T1` also
outside the directly-reachable range stores `T1` into the trampoline's
destination slot before the call word is rewritten (the trace orders the
slot store first), rewrites the call to branch to the trampoline's
address, invalidates the instruction cache over the call word after the
write, and afterwards `destination()` returns `T1`.  (When `T1` is
directly reachable the source instead rewrites the call straight to `T1`;
see the counterexample.) -/
theorem claim_C1_amended (env : Env) (s : State) (a dest t : Int)
    (hT : NativeCall.get_trampoline env s a = t)
    (hne : t ≠ 0)
    (hT0 : reachableFromBranchAt a (NativeCall.destination env s a) = false)
    (hun : reachableFromBranchAt a dest = false)
    (hst : env.stubContains t = true)
    (htr : is_NativeCallTrampolineStub_at s t = true)
    (hta : t ≠ a)
    (h4 : (t - a) % 4 = 0)
    (hlo : -(2 ^ 27) ≤ t - a) (hhi : t - a < 2 ^ 27) :
    NativeCall.set_destination_mt_safe_trace env s a dest
      = [Ev.w64ev (t + trampolineDataOffset) dest, Ev.fence,
         Ev.w32ev a (encBranch a t), Ev.inval a 4] ∧
    (NativeCall.set_destination_mt_safe env s a dest).w64 (t + trampolineDataOffset)
      = dest ∧
    (NativeCall.set_destination_mt_safe env s a dest).w32 a = encBranch a t ∧
    (NativeCall.set_destination_mt_safe env s a dest).icache = (a, 4) :: s.icache ∧
    NativeCall.destination env (NativeCall.set_destination_mt_safe env s a dest) a
      = dest := by
  have htrace := mt_safe_trace_eq env s a dest t hT hne hun
  have hfinal : NativeCall.set_destination_mt_safe env s a dest
      = { upd32 (upd64 s (t + trampolineDataOffset) dest) a (encBranch a t) with
          icache := (a, 4) ::
            (upd32 (upd64 s (t + trampolineDataOffset) dest) a (encBranch a t)).icache } := by
    unfold NativeCall.set_destination_mt_safe
    rw [htrace]
    rfl
  have hw64 : (NativeCall.set_destination_mt_safe env s a dest).w64 (t + trampolineDataOffset)
      = dest := by
    rw [hfinal]
    exact upd64_w64_self s (t + trampolineDataOffset) dest
  have hw32 : (NativeCall.set_destination_mt_safe env s a dest).w32 a = encBranch a t := by
    rw [hfinal]
    exact upd32_w32_self _ a _
  have hic : (NativeCall.set_destination_mt_safe env s a dest).icache
      = (a, 4) :: s.icache := by
    rw [hfinal]
    rfl
  have hw32t : (NativeCall.set_destination_mt_safe env s a dest).w32 t = s.w32 t := by
    rw [hfinal]
    show (upd32 (upd64 s (t + trampolineDataOffset) dest) a (encBranch a t)).w32 t
      = s.w32 t
    rw [upd32_w32_other _ a _ t hta]
    rfl
  refine ⟨htrace, hw64, hw32, hic, ?_⟩
  apply destination_through_trampoline env _ a t dest hw32 hta h4 hlo hhi hst _ hw64
  unfold is_NativeCallTrampolineStub_at at htr ⊢
  rw [hw32t]
  exact htr

/-- Claim C1 counterexample: on the concrete call site whose current
resolved target `0x9000000` is out of direct range (so the claim's
precondition holds, through the trampoline at `0x100`),
`set_destination_mt_safe(0x200)` with the reachable target `0x200`
rewrites the call word to branch directly to `0x200`, not to the
trampoline address `0x100` — refuting the claim's unconditional
"rewrites the call to branch to the trampoline's address". -/
theorem claim_C1_counterexample :
    reachableFromBranchAt 0 (NativeCall.destination callEnv callState 0) = false ∧
    NativeCall.get_trampoline callEnv callState 0 = 0x100 ∧
    (NativeCall.set_destination_mt_safe callEnv callState 0 0x200).w32 0
      = encBranch 0 0x200 ∧
    0 + NativeCall.displacement
        ((NativeCall.set_destination_mt_safe callEnv callState 0 0x200).w32 0) = 0x200 ∧
    (0x200 : Int) ≠ 0x100 :=
  ⟨by decide, by decide, by decide, by decide, by decide⟩

/-- Witness for claim C1 with the far target `0x10000000`. -/
theorem claim_C1_witness :
    (NativeCall.get_trampoline callEnv callState 0 = 0x100 ∧
     reachableFromBranchAt 0 (NativeCall.destination callEnv callState 0) = false ∧
     reachableFromBranchAt 0 0x10000000 = false) ∧
    (NativeCall.set_destination_mt_safe_trace callEnv callState 0 0x10000000
      = [Ev.w64ev (0x100 + trampolineDataOffset) 0x10000000, Ev.fence,
         Ev.w32ev 0 (encBranch 0 0x100), Ev.inval 0 4] ∧
     (NativeCall.set_destination_mt_safe callEnv callState 0 0x10000000).w64
        (0x100 + trampolineDataOffset) = 0x10000000 ∧
     (NativeCall.set_destination_mt_safe callEnv callState 0 0x10000000).w32 0
        = encBranch 0 0x100 ∧
     (NativeCall.set_destination_mt_safe callEnv callState 0 0x10000000).icache
        = (0, 4) :: callState.icache ∧
     NativeCall.destination callEnv
        (NativeCall.set_destination_mt_safe callEnv callState 0 0x10000000) 0
        = 0x10000000) :=
  ⟨⟨by decide, by decide, by decide⟩,
   claim_C1_amended callEnv callState 0 0x10000000 0x100 (by decide) (by decide)
     (by decide) (by decide) (by decide) (by decide) (by decide) (by decide)
     (by decide) (by decide)⟩

/-- Claim C2: during `set_destination_mt_safe(dest)` with `dest` outside
the directly-reachable range (and the trampoline association the source
asserts), a concurrent thread reading the call site's resolved
destination after any prefix of the atomic-event trace observes either
the pre-patch destination or `dest`, never an intermediate or invalid
address; each trace event writes one aligned word (or pointer cell), the
model's unit of atomic replacement. -/
theorem claim_C2 (env : Env) (s : State) (a dest t : Int)
    (hT : NativeCall.get_trampoline env s a = t)
    (hne : t ≠ 0)
    (hun : reachableFromBranchAt a dest = false)
    (hst : env.stubContains t = true)
    (htr : is_NativeCallTrampolineStub_at s t = true)
    (hta : t ≠ a)
    (h4 : (t - a) % 4 = 0)
    (hlo : -(2 ^ 27) ≤ t - a) (hhi : t - a < 2 ^ 27) :
    ∀ k : Nat, k ≤ 4 →
      NativeCall.destination env
          (runEvs s ((NativeCall.set_destination_mt_safe_trace env s a dest).take k)) a
        = NativeCall.destination env s a ∨
      NativeCall.destination env
          (runEvs s ((NativeCall.set_destination_mt_safe_trace env s a dest).take k)) a
        = dest := by
  intro k hk
  rw [mt_safe_trace_eq env s a dest t hT hne hun]
  have hu1 : NativeCall.destination env (upd64 s (t + trampolineDataOffset) dest) a
        = NativeCall.destination env s a ∨
      NativeCall.destination env (upd64 s (t + trampolineDataOffset) dest) a = dest := by
    by_cases hd0 : a + NativeCall.displacement (s.w32 a) = a
    · left
      unfold NativeCall.destination
      dsimp only
      rw [show (upd64 s (t + trampolineDataOffset) dest).w32 = s.w32 from rfl,
        if_pos hd0, if_pos hd0]
    · by_cases hc : (env.stubContains (a + NativeCall.displacement (s.w32 a)) &&
          is_NativeCallTrampolineStub_at s (a + NativeCall.displacement (s.w32 a))) = true
      · right
        have htd : a + NativeCall.displacement (s.w32 a) = t := by
          rw [← hT]
          unfold NativeCall.get_trampoline
          dsimp only
          rw [if_pos hc]
        unfold NativeCall.destination
        dsimp only
        rw [show (upd64 s (t + trampolineDataOffset) dest).w32 = s.w32 from rfl,
          if_neg hd0]
        rw [if_pos (show (env.stubContains (a + NativeCall.displacement (s.w32 a)) &&
            is_NativeCallTrampolineStub_at (upd64 s (t + trampolineDataOffset) dest)
              (a + NativeCall.displacement (s.w32 a))) = true from by
          unfold is_NativeCallTrampolineStub_at at hc ⊢
          exact hc)]
        unfold NativeCallTrampolineStub.destination
        rw [htd]
        exact upd64_w64_self s (t + trampolineDataOffset) dest
      · left
        unfold NativeCall.destination
        dsimp only
        rw [show (upd64 s (t + trampolineDataOffset) dest).w32 = s.w32 from rfl,
          if_neg hd0, if_neg hd0]
        rw [if_neg (show ¬(env.stubContains (a + NativeCall.displacement (s.w32 a)) &&
            is_NativeCallTrampolineStub_at (upd64 s (t + trampolineDataOffset) dest)
              (a + NativeCall.displacement (s.w32 a))) = true from by
          unfold is_NativeCallTrampolineStub_at at hc ⊢
          exact hc)]
        rw [if_neg hc]
  have h34 : ∀ u : State,
      u.w32 = (upd32 (upd64 s (t + trampolineDataOffset) dest) a (encBranch a t)).w32 →
      u.w64 = (upd64 s (t + trampolineDataOffset) dest).w64 →
      NativeCall.destination env u a = dest := by
    intro u huw32 huw64
    apply destination_through_trampoline env u a t dest _ hta h4 hlo hhi hst _ _
    · rw [huw32]
      exact upd32_w32_self _ a _
    · unfold is_NativeCallTrampolineStub_at at htr ⊢
      rw [huw32, upd32_w32_other _ a _ t hta]
      exact htr
    · rw [huw64]
      exact upd64_w64_self s (t + trampolineDataOffset) dest
  interval_cases k
  · left
    rfl
  · exact hu1
  · exact hu1
  · exact Or.inr (h34 _ rfl rfl)
  · exact Or.inr (h34 _ rfl rfl)

/-- Witness for claim C2 after the first atomic event (the slot store). -/
theorem claim_C2_witness :
    (NativeCall.get_trampoline callEnv callState 0 = 0x100 ∧
     reachableFromBranchAt 0 0x10000000 = false ∧ (1 : Nat) ≤ 4) ∧
    (NativeCall.destination callEnv
        (runEvs callState
          ((NativeCall.set_destination_mt_safe_trace callEnv callState 0 0x10000000).take 1))
        0
      = NativeCall.destination callEnv callState 0 ∨
     NativeCall.destination callEnv
        (runEvs callState
          ((NativeCall.set_destination_mt_safe_trace callEnv callState 0 0x10000000).take 1))
        0
      = 0x10000000) :=
  ⟨⟨by decide, by decide, by decide⟩,
   claim_C2 callEnv callState 0 0x10000000 0x100 (by decide) (by decide) (by decide)
     (by decide) (by decide) (by decide) (by decide) (by decide) (by decide) 1
     (by decide)⟩
